import Mathlib

/-!
Verification of the `up` heartbeat-monitoring server core against its
natural-language specification.

The model is a shallow embedding of the SQL-backed repository layer in
`up-server/src/repository/check.rs` and `up-server/src/repository/notification.rs`:
the relational state (tables `checks`, `notifications`, `check_notifications`,
`notification_alerts`) is a record of row lists, and each repository operation
becomes a pure state-passing function translated statement by statement from
the SQL the Rust code issues.
-/

namespace Up

/-- `check_status` enum, from `CheckStatus` in `repository/check.rs`. -/
inductive CheckStatus where
  | up
  | down
  | created
deriving DecidableEq, Repr

/-- `period_units` enum, from `PeriodUnits` in `repository/check.rs`. -/
inductive PeriodUnits where
  | hours
  | minutes
  | days
deriving DecidableEq, Repr

/-- `notification_type` enum, from `NotificationType`. -/
inductive NotificationType where
  | email
  | webhook
deriving DecidableEq, Repr

/-- Delivery status of a `notification_alerts` row: the SQL in
`send_alert_batch` uses the string values QUEUED, DELIVERED, FAILED. -/
inductive DeliveryStatus where
  | queued
  | delivered
  | failed
deriving DecidableEq, Repr

/-- A row of the `checks` table (columns used by the core paths).
Timestamps are modelled as seconds (`Int`). -/
structure CheckRow where
  id : Int
  uuid : Nat
  name : String
  ping_key : String
  status : CheckStatus
  ping_period : Int
  ping_period_units : PeriodUnits
  grace_period : Int
  grace_period_units : PeriodUnits
  last_ping_at : Option Int
  deleted : Bool
deriving DecidableEq, Repr

/-- A row of the `notifications` table (a notification channel). -/
structure NotificationRow where
  id : Int
  check_id : Int
  notification_type : NotificationType
  name : String
  email : Option String
  url : Option String
  max_retries : Int
  deleted : Bool
deriving DecidableEq, Repr

/-- A row of the `notification_alerts` table. -/
structure AlertRow where
  id : Int
  check_id : Int
  notification_id : Int
  check_status : CheckStatus
  delivery_status : DeliveryStatus
  retries_remaining : Int
  created_at : Int
  finished_at : Option Int
deriving DecidableEq, Repr

/-- The database state: the four tables the core touches, plus the
sequence backing `notification_alerts.id`. `check_notifications` rows are
`(check_id, notification_id)` pairs. -/
structure DB where
  checks : List CheckRow
  notifications : List NotificationRow
  check_notifications : List (Int × Int)
  alerts : List AlertRow
  next_alert_id : Int
deriving DecidableEq, Repr

/-! ## Overdue Detector (`enqueue_notification_alerts_for_overdue_pings`) -/

/-- The `CASE ping_period_units WHEN 'HOURS' THEN INTERVAL '1' HOUR WHEN 'DAYS'
THEN INTERVAL '1' DAY END` expression in the overdue-ping SQL: the CASE has no
MINUTES arm and no ELSE, so a MINUTES value yields SQL NULL (`none`). -/
def caseUnitInterval : PeriodUnits → Option Int
  | .hours => some 3600
  | .days => some 86400
  | .minutes => none

/-- `ping_period_interval` column: unit interval times `ping_period`
(NULL propagates). -/
def ping_period_interval (c : CheckRow) : Option Int :=
  (caseUnitInterval c.ping_period_units).map (fun u => u * c.ping_period)

/-- `grace_period_interval` column. -/
def grace_period_interval (c : CheckRow) : Option Int :=
  (caseUnitInterval c.grace_period_units).map (fun u => u * c.grace_period)

/-- `ping_overdue` column: `NOW() > last_ping_at + ping_period_interval`,
with SQL three-valued logic (NULL operand gives NULL). -/
def ping_overdue (now : Int) (c : CheckRow) : Option Bool :=
  match c.last_ping_at, ping_period_interval c with
  | some t, some i => some (decide (now > t + i))
  | _, _ => none

/-- `late_ping_overdue` column:
`NOW() > last_ping_at + ping_period_interval + grace_period_interval`. -/
def late_ping_overdue (now : Int) (c : CheckRow) : Option Bool :=
  match c.last_ping_at, ping_period_interval c, grace_period_interval c with
  | some t, some i, some g => some (decide (now > t + i + g))
  | _, _, _ => none

/-- Inner subquery filter of the overdue-ping SQL:
`deleted = false AND last_ping_at IS NOT NULL AND status NOT IN ('CREATED', 'PAUSED')`.
The Rust `CheckStatus` enum has no PAUSED variant, so only CREATED is
representable here. -/
def overdueEligible (c : CheckRow) : Bool :=
  !c.deleted && c.last_ping_at.isSome && !(decide (c.status = .created))

/-- Outer WHERE clause: the row is returned iff the filter passes and
`ping_overdue = true OR late_ping_overdue = true` (a NULL predicate is not
`= true`, so rows with NULL intervals are not selected). -/
def overdueSelected (now : Int) (c : CheckRow) : Bool :=
  overdueEligible c &&
    ((ping_overdue now c == some true) || (late_ping_overdue now c == some true))

/-- The `overdue_pings` result set fetched at the start of the detector
transaction. -/
def overduePings (now : Int) (db : DB) : List CheckRow :=
  db.checks.filter (overdueSelected now)

/-- The `NOT EXISTS (SELECT 1 FROM notification_alerts a WHERE a.check_id =
cn.check_id AND a.notification_id = n.id)` subquery, as a boolean. -/
def alertExists (db : DB) (checkId notificationId : Int) : Bool :=
  db.alerts.any (fun a => a.check_id == checkId && a.notification_id == notificationId)

/-- The join `check_notifications cn INNER JOIN notifications n ON
cn.notification_id = n.id AND cn.check_id = $1`: one output row per matching
`(cn, n)` combination. -/
def attachedChannelRows (db : DB) (checkId : Int) : List NotificationRow :=
  (db.check_notifications.filter (fun cn => cn.fst == checkId)).flatMap
    (fun cn => db.notifications.filter (fun n => n.id == cn.snd))

/-- The `notifications_to_alert` query of the detector: attached channels of
the check for which no `notification_alerts` row (of any delivery status)
exists for the `(check, channel)` pair. -/
def notificationsToAlert (db : DB) (checkId : Int) : List NotificationRow :=
  (attachedChannelRows db checkId).filter (fun n => !alertExists db checkId n.id)

/-- One `INSERT INTO notification_alerts (check_id, check_status,
notification_id, retries_remaining) VALUES ($1, $2, $3, $4)`.

Modelled from the spec: the remaining columns come from defaults in the
database migrations, which are not in the source tree; per the spec a new
alert starts with `delivery_status = QUEUED`, `created_at` set to the insert
time, and `finished_at` NULL; ids come from the table's id sequence. -/
def newAlert (now id checkId : Int) (checkStatus : CheckStatus)
    (n : NotificationRow) : AlertRow :=
  { id := id
    check_id := checkId
    notification_id := n.id
    check_status := checkStatus
    delivery_status := .queued
    retries_remaining := n.max_retries
    created_at := now
    finished_at := none }

/-- The insert loop body for one overdue check: one alert row per entry of
`notifications_to_alert`, taking consecutive ids from the sequence. -/
def newAlerts (now checkId : Int) (checkStatus : CheckStatus) :
    Int → List NotificationRow → List AlertRow
  | _, [] => []
  | nextId, n :: ns =>
      newAlert now nextId checkId checkStatus n ::
        newAlerts now checkId checkStatus (nextId + 1) ns

/-- Processing of one row of `overdue_pings` inside the detector
transaction: query `notifications_to_alert` against the current transaction
state and insert one alert per result. The check row itself is not updated
(the loop issues no UPDATE on `checks`). -/
def processCheck (now : Int) (db : DB) (c : CheckRow) : DB :=
  let ns := notificationsToAlert db c.id
  { db with
    alerts := db.alerts ++ newAlerts now c.id c.status db.next_alert_id ns
    next_alert_id := db.next_alert_id + ns.length }

/-- One Overdue Detector tick:
`CheckRepository::enqueue_notification_alerts_for_overdue_pings`. A single
transaction selects `overdue_pings` once and then processes each selected
check in order. -/
def enqueue_notification_alerts_for_overdue_pings (now : Int) (db : DB) : DB :=
  (overduePings now db).foldl (processCheck now) db

/-- Failure-aware processing of one overdue check: `fails cid nid` says
whether the INSERT for pair `(cid, nid)` raises a store error. The Rust `?`
operator propagates the first error out of the whole function. -/
def processCheckE (fails : Int → Int → Bool) (now : Int) (db : DB)
    (c : CheckRow) : Except Unit DB :=
  let ns := notificationsToAlert db c.id
  if ns.any (fun n => fails c.id n.id) then .error ()
  else .ok (processCheck now db c)

/-- The detector transaction body with a failure oracle. -/
def detectorTickE (fails : Int → Int → Bool) (now : Int) (db : DB) :
    Except Unit DB :=
  (overduePings now db).foldlM (processCheckE fails now) db

/-- The observable result of one detector tick under the failure oracle:
on success the transaction commits (`tx.commit()`); on any error the `?`
operator drops the transaction, which rolls back, leaving the stored state
unchanged (`false` reports the error the job loop logs). -/
def detectorTickCommitted (fails : Int → Int → Bool) (now : Int) (db : DB) :
    DB × Bool :=
  match detectorTickE fails now db with
  | .ok db1 => (db1, true)
  | .error _ => (db, false)

/-! ## Ping Ingestor (`CheckRepository::ping` and the `/ping/{key}` handler) -/

/-- Outcome of `CheckRepository::ping`: `Result<Option<Uuid>>`. -/
inductive PingOutcome where
  | ok (uuid : Option Nat)
  | notFoundPingKey
deriving DecidableEq, Repr

/-- The SELECT of `ping`: first `checks` row with `ping_key = $key AND
deleted = false` (`fetch_optional`). -/
def pingLookup (key : String) (db : DB) : Option CheckRow :=
  db.checks.find? (fun c => c.ping_key == key && !c.deleted)

/-- `CheckRepository::ping`: select the check by key; on no match return
`NotFoundPingKey` with the transaction dropped (no state change). On a match,
`UPDATE checks SET last_ping_at = now, status = 'UP' WHERE id = $1 AND
deleted = false`, commit, and return `Some(uuid)` iff a row was updated. -/
def ping (now : Int) (key : String) (db : DB) : DB × PingOutcome :=
  match pingLookup key db with
  | none => (db, .notFoundPingKey)
  | some c =>
    let rowsUpdated := db.checks.countP (fun r => r.id == c.id && !r.deleted)
    ({ db with
        checks := db.checks.map (fun r =>
          if r.id == c.id && !r.deleted then
            { r with last_ping_at := some now, status := .up }
          else r) },
      if rowsUpdated > 0 then .ok (some c.uuid) else .ok none)

/-- The `POST /ping/{key}` handler in `api/v1/ping.rs`: invokes the
repository `ping`, logs every outcome (match, unknown key, error), and
always responds `"OK"`. -/
def pingEndpoint (now : Int) (key : String) (db : DB) : DB × String :=
  ((ping now key db).fst, "OK")

/-! ## Alert Delivery Worker (`NotificationRepository::send_alert_batch`) -/

/-- Status check in the batch-claim WHERE clause:
`delivery_status = 'QUEUED' OR (delivery_status = 'FAILED' AND
retries_remaining > 0)`. -/
def alertReady (a : AlertRow) : Bool :=
  (decide (a.delivery_status = .queued)) ||
    ((decide (a.delivery_status = .failed)) && a.retries_remaining > 0)

/-- The INNER JOINs of the batch-claim query: the alert's notification row
exists with `n.deleted = false`, and that notification's check row exists
with `c.deleted = false`. -/
def alertJoinLive (db : DB) (a : AlertRow) : Bool :=
  db.notifications.any (fun n =>
    n.id == a.notification_id && !n.deleted &&
      db.checks.any (fun c => c.id == n.check_id && !c.deleted))

/-- A `notification_alerts` row the batch-claim query may return. -/
def alertEligible (db : DB) (a : AlertRow) : Bool :=
  alertJoinLive db a && alertReady a

/-- Insertion step of a stable sort by `created_at` (`ORDER BY a.created_at
ASC`). -/
def insertByCreated (a : AlertRow) : List AlertRow → List AlertRow
  | [] => [a]
  | b :: bs =>
      if a.created_at ≤ b.created_at then a :: b :: bs
      else b :: insertByCreated a bs

/-- Stable sort by `created_at` ascending. -/
def sortByCreated : List AlertRow → List AlertRow
  | [] => []
  | a :: rest => insertByCreated a (sortByCreated rest)

/-- The batch claim, `SELECT ... FOR UPDATE SKIP LOCKED`, against a set of
row locks already held by other transactions: eligible rows whose id is not
locked, in `created_at` order, limited to `n` (`LIMIT 10` in the source). -/
def claimBatchFrom (locked : List Int) (n : Nat) (db : DB) : List AlertRow :=
  (sortByCreated (db.alerts.filter
      (fun a => alertEligible db a && !(decide (a.id ∈ locked))))).take n

/-- The batch claim of one worker tick with no competing locks. -/
def claimBatch (db : DB) : List AlertRow := claimBatchFrom [] 10 db

/-- An atomic claim step by one worker: returns the claimed rows and the
lock set extended with their row locks (held until that worker's
transaction ends). -/
def claimStep (n : Nat) (db : DB) (locked : List Int) :
    List AlertRow × List Int :=
  let claimed := claimBatchFrom locked n db
  (claimed, locked ++ claimed.map (fun a => a.id))

/-- Per-row UPDATE applied to a failed dispatch: the branch is chosen on the
claimed row's `retries_remaining` value; both branches set `delivery_status =
'FAILED'` and `finished_at = NOW()`, the exhausted branch pins
`retries_remaining = 0`, the other decrements it. -/
def failedUpdate (now : Int) (claimed row : AlertRow) : AlertRow :=
  if claimed.retries_remaining ≤ 0 then
    { row with
        delivery_status := .failed
        retries_remaining := 0
        finished_at := some now }
  else
    { row with
        delivery_status := .failed
        retries_remaining := row.retries_remaining - 1
        finished_at := some now }

/-- Effect of the tick's UPDATE statements on one stored row: every UPDATE
targets `WHERE id = $1`; the failed-dispatch UPDATE runs after the
delivered UPDATE, so it wins for a shared id. -/
def rowUpdate (now : Int) (sent failed : List AlertRow) (row : AlertRow) :
    AlertRow :=
  match failed.find? (fun f => f.id == row.id) with
  | some f => failedUpdate now f row
  | none =>
      if sent.any (fun s => s.id == row.id) then
        { row with delivery_status := .delivered, finished_at := some now }
      else row

/-- One Alert Delivery Worker tick, `NotificationRepository::send_alert_batch`:
claim a batch, dispatch each claimed alert through the notifier (`sendOk`
abstracts the notifier port's success/failure), then record per-row outcomes
and commit; returns the delivered alerts as the Rust function does. -/
def send_alert_batch (sendOk : AlertRow → Bool) (now : Int) (db : DB) :
    DB × List AlertRow :=
  let claimed := claimBatch db
  let sent := claimed.filter sendOk
  let failed := claimed.filter (fun a => !sendOk a)
  ({ db with alerts := db.alerts.map (rowUpdate now sent failed) }, sent)

/-! ## Concrete scenario states -/

/-- A check on a one-hour ping period, last pinged at time 0, currently UP. -/
def checkA : CheckRow :=
  { id := 1, uuid := 11, name := "a", ping_key := "k1", status := .up
    ping_period := 1, ping_period_units := .hours
    grace_period := 0, grace_period_units := .hours
    last_ping_at := some 0, deleted := false }

/-- A second one-hour check, also overdue at time 4000. -/
def checkB : CheckRow :=
  { id := 2, uuid := 12, name := "b", ping_key := "k2", status := .up
    ping_period := 1, ping_period_units := .hours
    grace_period := 0, grace_period_units := .hours
    last_ping_at := some 0, deleted := false }

/-- A check whose ping period is expressed in MINUTES (60 minutes),
last pinged at time 0. -/
def checkMinutes : CheckRow :=
  { id := 3, uuid := 13, name := "m", ping_key := "k3", status := .up
    ping_period := 60, ping_period_units := .minutes
    grace_period := 0, grace_period_units := .hours
    last_ping_at := some 0, deleted := false }

/-- A check currently DOWN, for exercising the ping path from a non-UP
status. -/
def checkDown : CheckRow :=
  { id := 4, uuid := 14, name := "d", ping_key := "k4", status := .down
    ping_period := 1, ping_period_units := .hours
    grace_period := 0, grace_period_units := .hours
    last_ping_at := some 0, deleted := false }

/-- An email channel of `checkA` with a retry budget of 3. -/
def chanA : NotificationRow :=
  { id := 21, check_id := 1, notification_type := .email, name := "na"
    email := some "a@x", url := none, max_retries := 3, deleted := false }

/-- An email channel of `checkB`. -/
def chanB : NotificationRow :=
  { id := 22, check_id := 2, notification_type := .email, name := "nb"
    email := some "b@x", url := none, max_retries := 3, deleted := false }

/-- An email channel of `checkA` with `max_retries = 2`, for the retry
exhaustion scenario. -/
def chanRetry2 : NotificationRow :=
  { id := 23, check_id := 1, notification_type := .email, name := "nr"
    email := some "r@x", url := none, max_retries := 2, deleted := false }

/-- One overdue check with one channel and an empty alert queue. -/
def dbC1 : DB :=
  { checks := [checkA], notifications := [chanA]
    check_notifications := [(1, 21)], alerts := [], next_alert_id := 1000 }

/-- A terminal (DELIVERED) alert already recorded for the pair
`(checkA, chanA)`. -/
def alertDelivered : AlertRow :=
  { id := 900, check_id := 1, notification_id := 21, check_status := .up
    delivery_status := .delivered, retries_remaining := 3
    created_at := 100, finished_at := some 200 }

/-- Like `dbC1` but with the terminal alert already present for the pair. -/
def dbC2 : DB :=
  { dbC1 with alerts := [alertDelivered] }

/-- A queued alert against `chanRetry2` with the full retry budget of 2. -/
def alertQueued2 : AlertRow :=
  { id := 100, check_id := 1, notification_id := 23, check_status := .up
    delivery_status := .queued, retries_remaining := 2
    created_at := 50, finished_at := none }

/-- One queued alert on a channel with `max_retries = 2`, its check and
channel live. -/
def dbC3 : DB :=
  { checks := [checkA], notifications := [chanRetry2]
    check_notifications := [(1, 23)], alerts := [alertQueued2]
    next_alert_id := 1000 }

/-- A notifier whose every dispatch fails. -/
def alwaysFail (_ : AlertRow) : Bool := false

/-- State after the first all-failing Delivery Worker tick on `dbC3`. -/
def dbC3after1 : DB := (send_alert_batch alwaysFail 1001 dbC3).fst

/-- State after the second all-failing Delivery Worker tick. -/
def dbC3after2 : DB := (send_alert_batch alwaysFail 1002 dbC3after1).fst

/-- State after the third all-failing Delivery Worker tick. -/
def dbC3after3 : DB := (send_alert_batch alwaysFail 1003 dbC3after2).fst

/-- Two overdue checks, each with its own channel, and no alerts yet. -/
def dbC5 : DB :=
  { checks := [checkA, checkB], notifications := [chanA, chanB]
    check_notifications := [(1, 21), (2, 22)], alerts := []
    next_alert_id := 1000 }

/-- A failure oracle under which every alert INSERT for `checkA` (id 1)
raises a store error, while inserts for other checks succeed. -/
def failsOnCheckA (cid : Int) (_ : Int) : Bool := cid == 1

/-- The MINUTES-scheduled check alone. -/
def dbC6 : DB :=
  { checks := [checkMinutes], notifications := [chanA]
    check_notifications := [(3, 21)], alerts := [], next_alert_id := 1000 }

/-- A DOWN check for the ping-path witness. -/
def dbC7 : DB :=
  { checks := [checkDown], notifications := [], check_notifications := []
    alerts := [], next_alert_id := 1000 }

/-- One ready (QUEUED) alert row of the five-row claim scenario. -/
def queuedAlertAt (id created : Int) : AlertRow :=
  { id := id, check_id := 1, notification_id := 21, check_status := .up
    delivery_status := .queued, retries_remaining := 3
    created_at := created, finished_at := none }

/-- Five ready alerts on a live check/channel, for the double-claim
scenario. -/
def dbC4 : DB :=
  { checks := [checkA], notifications := [chanA]
    check_notifications := [(1, 21)]
    alerts := [queuedAlertAt 101 1, queuedAlertAt 102 2, queuedAlertAt 103 3,
               queuedAlertAt 104 4, queuedAlertAt 105 5]
    next_alert_id := 2000 }

/-! ## Closed results on the concrete scenarios -/

/-- C1 counterexample: `checkA` is selected as overdue by the Detector tick
at time 4000, yet the tick leaves its stored status `UP` — the claim that
each selected overdue Check "has its status updated to DOWN by that tick" is
false: the detector transaction issues no UPDATE on `checks` at all. -/
theorem C1_counterexample :
    overdueSelected 4000 checkA = true ∧
    checkA ∈ overduePings 4000 dbC1 ∧
    ((enqueue_notification_alerts_for_overdue_pings 4000 dbC1).checks.map
      (fun c => c.status)) = [CheckStatus.up] := by decide

/-- C2 counterexample: for the pair `(checkA, chanA)` the only existing
alert is terminal (`delivery_status = DELIVERED`), so no non-terminal alert
exists; yet a Detector tick that selects `checkA` enqueues nothing — the
`NOT EXISTS` dedup ignores `delivery_status`, so a terminal alert blocks a
subsequent outage from enqueueing a new alert, refuting the claimed
"if and only if no non-terminal NotificationAlert exists". -/
theorem C2_counterexample :
    checkA ∈ overduePings 4000 dbC2 ∧
    attachedChannelRows dbC2 1 = [chanA] ∧
    dbC2.alerts.map (fun a => a.delivery_status) = [DeliveryStatus.delivered] ∧
    (enqueue_notification_alerts_for_overdue_pings 4000 dbC2).alerts =
      dbC2.alerts := by decide

/-- C3 counterexample: with `max_retries = 2` and an always-failing
notifier, only the first two Delivery Worker ticks claim the alert; after
the second failed attempt the alert is `FAILED` with `retries_remaining = 0`
and the third tick already claims nothing — there is no third consecutive
failed dispatch attempt, refuting the claimed three attempts followed by a
fourth non-claiming tick. -/
theorem C3_counterexample :
    (claimBatch dbC3).length = 1 ∧
    (claimBatch dbC3after1).length = 1 ∧
    claimBatch dbC3after2 = [] ∧
    dbC3after2.alerts.map (fun a => (a.delivery_status, a.retries_remaining)) =
      [(DeliveryStatus.failed, 0)] := by decide

/-- C3 amended: with `max_retries = 2` and every dispatch failing,
successive Delivery Worker ticks produce exactly two failed attempts — the
first decrements `retries_remaining` from 2 to 1, the second from 1 to 0 —
leaving `delivery_status = FAILED` and `retries_remaining = 0`, after which
the next (third) tick does not re-claim the alert and changes nothing. -/
theorem C3_two_failed_attempts_then_terminal :
    dbC3after1.alerts.map
        (fun a => (a.delivery_status, a.retries_remaining)) =
      [(DeliveryStatus.failed, 1)] ∧
    dbC3after2.alerts.map
        (fun a => (a.delivery_status, a.retries_remaining)) =
      [(DeliveryStatus.failed, 0)] ∧
    claimBatch dbC3after2 = [] ∧
    dbC3after3 = dbC3after2 := by decide

/-- C5 counterexample: `checkB` is overdue and would receive an alert on a
failure-free tick, but when the INSERT for `checkA` fails the single
per-tick transaction rolls back and `checkB` gets no alert either — a
failure while processing one Check does abort the processing of the other
selected Checks, refuting the claimed one-transaction-per-Check isolation. -/
theorem C5_counterexample :
    checkB ∈ overduePings 4000 dbC5 ∧
    (enqueue_notification_alerts_for_overdue_pings 4000 dbC5).alerts.length = 2 ∧
    (detectorTickCommitted failsOnCheckA 4000 dbC5).snd = false ∧
    (detectorTickCommitted failsOnCheckA 4000 dbC5).fst = dbC5 := by decide

/-- C6: a Check whose `ping_period_units` is MINUTES is never selected as
overdue, even arbitrarily far past its ping period: the SQL
`CASE ping_period_units` expression has arms only for HOURS and DAYS, so a
MINUTES unit yields a NULL interval, both overdue predicates evaluate to
NULL, and the row fails the `= true` filter — while the equivalent
HOURS-scheduled check is selected. -/
theorem C6_minutes_check_never_selected :
    ping_period_interval checkMinutes = none ∧
    ping_overdue 10000000 checkMinutes = none ∧
    overdueSelected 10000000 checkMinutes = false ∧
    overduePings 10000000 dbC6 = [] ∧
    overdueSelected 10000000 checkA = true := by decide

/-! ## Detector lemmas -/

theorem processCheck_checks (now : Int) (db : DB) (c : CheckRow) :
    (processCheck now db c).checks = db.checks := rfl

theorem processCheck_notifications (now : Int) (db : DB) (c : CheckRow) :
    (processCheck now db c).notifications = db.notifications := rfl

theorem processCheck_cn (now : Int) (db : DB) (c : CheckRow) :
    (processCheck now db c).check_notifications = db.check_notifications := rfl

theorem foldl_processCheck_checks (now : Int) :
    ∀ (l : List CheckRow) (db : DB),
      (l.foldl (processCheck now) db).checks = db.checks
  | [], _ => rfl
  | c :: cs, db => by
      rw [List.foldl_cons, foldl_processCheck_checks now cs, processCheck_checks]

theorem foldl_processCheck_notifications (now : Int) :
    ∀ (l : List CheckRow) (db : DB),
      (l.foldl (processCheck now) db).notifications = db.notifications
  | [], _ => rfl
  | c :: cs, db => by
      rw [List.foldl_cons, foldl_processCheck_notifications now cs,
        processCheck_notifications]

theorem foldl_processCheck_cn (now : Int) :
    ∀ (l : List CheckRow) (db : DB),
      (l.foldl (processCheck now) db).check_notifications =
        db.check_notifications
  | [], _ => rfl
  | c :: cs, db => by
      rw [List.foldl_cons, foldl_processCheck_cn now cs, processCheck_cn]

theorem attachedChannelRows_congr {db1 db2 : DB}
    (h1 : db1.check_notifications = db2.check_notifications)
    (h2 : db1.notifications = db2.notifications) (cid : Int) :
    attachedChannelRows db1 cid = attachedChannelRows db2 cid := by
  unfold attachedChannelRows
  rw [h1, h2]

theorem alertExists_processCheck_of (now : Int) (db : DB) (c : CheckRow)
    {cid nid : Int} (h : alertExists db cid nid = true) :
    alertExists (processCheck now db c) cid nid = true := by
  have halts : (processCheck now db c).alerts =
      db.alerts ++ newAlerts now c.id c.status db.next_alert_id
        (notificationsToAlert db c.id) := rfl
  unfold alertExists at h ⊢
  rw [halts]
  simp only [List.any_append, h, Bool.true_or]

theorem newAlerts_any (now cid : Int) (st : CheckStatus) :
    ∀ (k : Int) (ns : List NotificationRow) (n : NotificationRow), n ∈ ns →
      (newAlerts now cid st k ns).any
        (fun a => a.check_id == cid && a.notification_id == n.id) = true
  | _, [], _, h => absurd h (List.not_mem_nil _)
  | k, m :: ms, n, h => by
      rcases List.mem_cons.mp h with h1 | h2
      · subst h1
        simp [newAlerts, newAlert]
      · simp only [newAlerts, List.any_cons, Bool.or_eq_true]
        exact Or.inr (newAlerts_any now cid st (k + 1) ms n h2)

theorem processCheck_creates (now : Int) (db : DB) (c : CheckRow)
    (n : NotificationRow) (hn : n ∈ attachedChannelRows db c.id) :
    alertExists (processCheck now db c) c.id n.id = true := by
  by_cases h : alertExists db c.id n.id = true
  · exact alertExists_processCheck_of now db c h
  · have hb : alertExists db c.id n.id = false := by
      simpa using h
    have hmem : n ∈ notificationsToAlert db c.id :=
      List.mem_filter.mpr ⟨hn, by simp [hb]⟩
    show (db.alerts ++
        newAlerts now c.id c.status db.next_alert_id
          (notificationsToAlert db c.id)).any
      (fun a => a.check_id == c.id && a.notification_id == n.id) = true
    simp only [List.any_append, Bool.or_eq_true]
    exact Or.inr (newAlerts_any now c.id c.status db.next_alert_id _ n hmem)

theorem foldl_processCheck_mono (now : Int) :
    ∀ (l : List CheckRow) (db : DB) {cid nid : Int},
      alertExists db cid nid = true →
      alertExists (l.foldl (processCheck now) db) cid nid = true
  | [], _, _, _, h => h
  | c :: cs, db, cid, nid, h => by
      rw [List.foldl_cons]
      exact foldl_processCheck_mono now cs (processCheck now db c)
        (alertExists_processCheck_of now db c h)

theorem foldl_processCheck_creates (now : Int) :
    ∀ (l : List CheckRow) (db : DB) (c : CheckRow) (n : NotificationRow),
      c ∈ l → n ∈ attachedChannelRows db c.id →
      alertExists (l.foldl (processCheck now) db) c.id n.id = true
  | [], _, _, _, hc, _ => absurd hc (List.not_mem_nil _)
  | c0 :: cs, db, c, n, hc, hn => by
      rw [List.foldl_cons]
      rcases List.mem_cons.mp hc with h1 | h2
      · subst h1
        exact foldl_processCheck_mono now cs (processCheck now db c)
          (processCheck_creates now db c n hn)
      · refine foldl_processCheck_creates now cs (processCheck now db c0) c n h2 ?_
        rwa [attachedChannelRows_congr (processCheck_cn now db c0)
          (processCheck_notifications now db c0)]

theorem notificationsToAlert_eq_nil {db : DB} {cid : Int}
    (h : ∀ n ∈ attachedChannelRows db cid, alertExists db cid n.id = true) :
    notificationsToAlert db cid = [] := by
  unfold notificationsToAlert
  rw [List.filter_eq_nil_iff]
  intro n hn
  simp [h n hn]

theorem processCheck_eq_self (now : Int) (db : DB) (c : CheckRow)
    (h : notificationsToAlert db c.id = []) : processCheck now db c = db := by
  unfold processCheck
  rw [h]
  simp [newAlerts]

theorem foldl_eq_self {α : Type} (f : DB → α → DB) :
    ∀ (l : List α) (db : DB), (∀ a ∈ l, f db a = db) → l.foldl f db = db
  | [], _, _ => rfl
  | a :: as, db, h => by
      rw [List.foldl_cons, h a (List.mem_cons_self a as)]
      exact foldl_eq_self f as db (fun b hb => h b (List.mem_cons_of_mem a hb))

/-- C1 amended: the Overdue Detector tick never updates Check status — the
`checks` table is left exactly as it was (in particular, no selected Check
is set to DOWN) — and re-applying the tick to the resulting state neither
errors (the function is total) nor double-enqueues: a second tick at the
same instant is a no-op, because every selected Check's attached channels
already carry an alert. -/
theorem C1_tick_preserves_status_and_is_idempotent (now : Int) (db : DB) :
    (enqueue_notification_alerts_for_overdue_pings now db).checks = db.checks ∧
    enqueue_notification_alerts_for_overdue_pings now
        (enqueue_notification_alerts_for_overdue_pings now db) =
      enqueue_notification_alerts_for_overdue_pings now db := by
  have hchecks :
      (enqueue_notification_alerts_for_overdue_pings now db).checks =
        db.checks :=
    foldl_processCheck_checks now (overduePings now db) db
  refine ⟨hchecks, ?_⟩
  have hover :
      overduePings now (enqueue_notification_alerts_for_overdue_pings now db) =
        overduePings now db := by
    unfold overduePings
    rw [hchecks]
  show (overduePings now
      (enqueue_notification_alerts_for_overdue_pings now db)).foldl
        (processCheck now)
        (enqueue_notification_alerts_for_overdue_pings now db) =
    enqueue_notification_alerts_for_overdue_pings now db
  rw [hover]
  apply foldl_eq_self
  intro c hc
  apply processCheck_eq_self
  apply notificationsToAlert_eq_nil
  intro n hn
  have hcn : (enqueue_notification_alerts_for_overdue_pings now db).check_notifications =
      db.check_notifications :=
    foldl_processCheck_cn now (overduePings now db) db
  have hnt : (enqueue_notification_alerts_for_overdue_pings now db).notifications =
      db.notifications :=
    foldl_processCheck_notifications now (overduePings now db) db
  have hn' : n ∈ attachedChannelRows db c.id := by
    rwa [attachedChannelRows_congr hcn hnt] at hn
  exact foldl_processCheck_creates now (overduePings now db) db c n hc hn'

/-! ## Delivery Worker lemmas -/

theorem mem_insertByCreated {b a : AlertRow} :
    ∀ {l : List AlertRow}, b ∈ insertByCreated a l → b = a ∨ b ∈ l
  | [], h => Or.inl (by simpa [insertByCreated] using h)
  | x :: xs, h => by
      unfold insertByCreated at h
      by_cases hle : a.created_at ≤ x.created_at
      · rw [if_pos hle] at h
        rcases List.mem_cons.mp h with h1 | h2
        · exact Or.inl h1
        · exact Or.inr h2
      · rw [if_neg hle] at h
        rcases List.mem_cons.mp h with h1 | h2
        · exact Or.inr (h1 ▸ List.mem_cons_self x xs)
        · rcases mem_insertByCreated h2 with h3 | h4
          · exact Or.inl h3
          · exact Or.inr (List.mem_cons_of_mem x h4)

theorem mem_sortByCreated {b : AlertRow} :
    ∀ {l : List AlertRow}, b ∈ sortByCreated l → b ∈ l
  | [], h => by rw [sortByCreated] at h; exact h
  | a :: rest, h => by
      unfold sortByCreated at h
      rcases mem_insertByCreated h with h1 | h2
      · exact h1 ▸ List.mem_cons_self a rest
      · exact List.mem_cons_of_mem a (mem_sortByCreated h2)

theorem mem_claimBatchFrom {locked : List Int} {n : Nat} {db : DB}
    {a : AlertRow} (h : a ∈ claimBatchFrom locked n db) :
    a ∈ db.alerts ∧ alertEligible db a = true ∧ a.id ∉ locked := by
  have h1 : a ∈ sortByCreated (db.alerts.filter
      (fun x => alertEligible db x && !(decide (x.id ∈ locked)))) :=
    (List.take_sublist n _).subset h
  obtain ⟨hm, hp⟩ := List.mem_filter.mp (mem_sortByCreated h1)
  rw [Bool.and_eq_true] at hp
  refine ⟨hm, hp.1, ?_⟩
  simpa using hp.2

/-- C4: two batch-claims that run concurrently against the same queue claim
disjoint sets of alert rows: whatever the queue contents, the claim sizes,
and the locks already held, a row claimed by the first worker is skipped by
the second (`FOR UPDATE SKIP LOCKED`), so no alert id appears in both
claims. -/
theorem C4_concurrent_claims_disjoint (db : DB) (n1 n2 : Nat)
    (locked : List Int) (a b : AlertRow)
    (ha : a ∈ (claimStep n1 db locked).fst)
    (hb : b ∈ (claimStep n2 db (claimStep n1 db locked).snd).fst) :
    a.id ≠ b.id := by
  obtain ⟨-, -, hbl⟩ := mem_claimBatchFrom hb
  intro he
  apply hbl
  rw [← he]
  exact List.mem_append_right locked
    (List.mem_map_of_mem (fun x => x.id) ha)

/-- C4 witness: on the five-alert queue, a first claim of size 2 takes the
two oldest rows and a second concurrent claim of size 10 takes only the
remaining three; a row of the first claim and a row of the second have
different ids. -/
theorem C4_witness :
    queuedAlertAt 101 1 ∈ (claimStep 2 dbC4 []).fst ∧
    queuedAlertAt 103 3 ∈ (claimStep 10 dbC4 (claimStep 2 dbC4 []).snd).fst ∧
    (queuedAlertAt 101 1).id ≠ (queuedAlertAt 103 3).id :=
  ⟨by decide, by decide,
    C4_concurrent_claims_disjoint dbC4 2 10 [] (queuedAlertAt 101 1)
      (queuedAlertAt 103 3) (by decide) (by decide)⟩

theorem claimBatch_subset {db : DB} {a : AlertRow} (h : a ∈ claimBatch db) :
    a ∈ db.alerts ∧ alertEligible db a = true :=
  ⟨(mem_claimBatchFrom h).1, (mem_claimBatchFrom h).2.1⟩

theorem alertEligible_live {db : DB} {a : AlertRow}
    (h : alertEligible db a = true) : alertJoinLive db a = true := by
  unfold alertEligible at h
  rw [Bool.and_eq_true] at h
  exact h.1

theorem rowUpdate_eq_self {now : Int} {sent failed : List AlertRow}
    {row : AlertRow}
    (hf : failed.find? (fun f => f.id == row.id) = none)
    (hs : sent.any (fun s => s.id == row.id) = false) :
    rowUpdate now sent failed row = row := by
  unfold rowUpdate
  rw [hf, hs]
  simp

theorem alerts_id_inj {db : DB}
    (hnd : (db.alerts.map (fun x => x.id)).Nodup)
    {x y : AlertRow} (hx : x ∈ db.alerts) (hy : y ∈ db.alerts)
    (hxy : x.id = y.id) : x = y :=
  List.inj_on_of_nodup_map hnd hx hy hxy

/-- C10: every alert claimed by a Delivery Worker batch joins a non-deleted
notification channel whose check is also non-deleted; and an alert whose
channel or check is soft-deleted is never claimed — and is left verbatim in
the table (delivery status and retry budget unchanged) by the worker tick. -/
theorem C10_claimed_alerts_reference_live_rows (db : DB)
    (sendOk : AlertRow → Bool) (now : Int)
    (hnd : (db.alerts.map (fun x => x.id)).Nodup) :
    (∀ a ∈ claimBatch db, alertJoinLive db a = true) ∧
    (∀ row ∈ db.alerts, alertJoinLive db row = false →
      row ∉ claimBatch db ∧
        row ∈ (send_alert_batch sendOk now db).fst.alerts) := by
  constructor
  · intro a ha
    exact alertEligible_live (claimBatch_subset ha).2
  · intro row hrow hdead
    have hnotclaim : row ∉ claimBatch db := by
      intro hmem
      rw [alertEligible_live (claimBatch_subset hmem).2] at hdead
      exact Bool.noConfusion hdead
    refine ⟨hnotclaim, ?_⟩
    have hno : ∀ x ∈ claimBatch db, ¬((x.id == row.id) = true) := by
      intro x hx hid
      have hxr : x = row :=
        alerts_id_inj hnd (claimBatch_subset hx).1 hrow (beq_iff_eq.mp hid)
      exact hnotclaim (hxr ▸ hx)
    have hf : ((claimBatch db).filter (fun x => !sendOk x)).find?
        (fun f => f.id == row.id) = none := by
      rw [List.find?_eq_none]
      intro x hx
      exact hno x (List.mem_of_mem_filter hx)
    have hs : ((claimBatch db).filter sendOk).any
        (fun s => s.id == row.id) = false := by
      rw [List.any_eq_false]
      intro x hx
      exact hno x (List.mem_of_mem_filter hx)
    show row ∈ db.alerts.map (rowUpdate now ((claimBatch db).filter sendOk)
      ((claimBatch db).filter (fun x => !sendOk x)))
    exact List.mem_map.mpr ⟨row, hrow, rowUpdate_eq_self hf hs⟩

/-- C9 amended: `finished_at` is not reserved for terminal states — the
failed-dispatch UPDATE sets it unconditionally. After a failed attempt on a
claimed alert that still had retries left, the stored row is FAILED with the
budget decremented by one and `finished_at` set to the attempt time. -/
theorem C9_failed_attempt_sets_finished_at (db : DB)
    (sendOk : AlertRow → Bool) (now : Int) (a : AlertRow)
    (hnd : (db.alerts.map (fun x => x.id)).Nodup)
    (ha : a ∈ claimBatch db) (hfail : sendOk a = false)
    (hr : 0 < a.retries_remaining) :
    { a with delivery_status := .failed,
             retries_remaining := a.retries_remaining - 1,
             finished_at := some now } ∈
      (send_alert_batch sendOk now db).fst.alerts := by
  have haMem : a ∈ db.alerts := (claimBatch_subset ha).1
  have haF : a ∈ (claimBatch db).filter (fun x => !sendOk x) :=
    List.mem_filter.mpr ⟨ha, by simp [hfail]⟩
  have hfind : ∃ f, ((claimBatch db).filter (fun x => !sendOk x)).find?
      (fun f => f.id == a.id) = some f := by
    cases hE : ((claimBatch db).filter (fun x => !sendOk x)).find?
        (fun f => f.id == a.id) with
    | none =>
        exfalso
        rw [List.find?_eq_none] at hE
        exact hE a haF (by simp)
    | some f => exact ⟨f, rfl⟩
  obtain ⟨f, hf⟩ := hfind
  have hfm : f ∈ (claimBatch db).filter (fun x => !sendOk x) :=
    List.mem_of_find?_eq_some hf
  have hfid := List.find?_some hf
  have hfa : f = a :=
    alerts_id_inj hnd (claimBatch_subset (List.mem_of_mem_filter hfm)).1
      haMem (beq_iff_eq.mp hfid)
  have hupd : rowUpdate now ((claimBatch db).filter sendOk)
      ((claimBatch db).filter (fun x => !sendOk x)) a =
      { a with delivery_status := .failed,
               retries_remaining := a.retries_remaining - 1,
               finished_at := some now } := by
    have hneg : ¬a.retries_remaining ≤ 0 := by omega
    unfold rowUpdate
    rw [hf, hfa]
    show failedUpdate now a a = _
    unfold failedUpdate
    rw [if_neg hneg]
  exact List.mem_map.mpr ⟨a, haMem, hupd⟩

/-- C9 witness: the claimed queued alert of the retry scenario fails its
dispatch with 2 retries left; the resulting stored row is FAILED with one
retry fewer and `finished_at = 1001`. -/
theorem C9_witness :
    (dbC3.alerts.map (fun x => x.id)).Nodup ∧
    alertQueued2 ∈ claimBatch dbC3 ∧
    alwaysFail alertQueued2 = false ∧
    0 < alertQueued2.retries_remaining ∧
    { alertQueued2 with
        delivery_status := .failed,
        retries_remaining := alertQueued2.retries_remaining - 1,
        finished_at := some 1001 } ∈
      (send_alert_batch alwaysFail 1001 dbC3).fst.alerts :=
  ⟨by decide, by decide, by decide, by decide,
    C9_failed_attempt_sets_finished_at dbC3 alwaysFail 1001 alertQueued2
      (by decide) (by decide) (by decide) (by decide)⟩

/-- A soft-deleted channel of `checkA`. -/
def chanDeleted : NotificationRow :=
  { id := 24, check_id := 1, notification_type := .email, name := "nd"
    email := some "d@x", url := none, max_retries := 3, deleted := true }

/-- A queued alert pointing at the soft-deleted channel. -/
def alertDeadChan : AlertRow :=
  { id := 300, check_id := 1, notification_id := 24, check_status := .up
    delivery_status := .queued, retries_remaining := 3
    created_at := 10, finished_at := none }

/-- A queue whose only alert references a soft-deleted channel. -/
def dbC10 : DB :=
  { checks := [checkA], notifications := [chanDeleted]
    check_notifications := [(1, 24)], alerts := [alertDeadChan]
    next_alert_id := 1000 }

/-- C10 witness: with the only queued alert referencing a soft-deleted
channel, worker ticks claim only live-referencing alerts and leave the dead
alert untouched. -/
theorem C10_witness :
    (dbC10.alerts.map (fun x => x.id)).Nodup ∧
    ((∀ a ∈ claimBatch dbC10, alertJoinLive dbC10 a = true) ∧
      (∀ row ∈ dbC10.alerts, alertJoinLive dbC10 row = false →
        row ∉ claimBatch dbC10 ∧
          row ∈ (send_alert_batch alwaysFail 7 dbC10).fst.alerts)) :=
  ⟨by decide,
    C10_claimed_alerts_reference_live_rows dbC10 alwaysFail 7 (by decide)⟩

/-- C9 counterexample: after the first failed dispatch attempt the alert
still has `retries_remaining = 1 > 0` (non-terminal), yet `finished_at` has
been set to the attempt time — the failed-dispatch UPDATE sets
`finished_at = NOW()` in its decrement branch too, refuting the claim that
`finished_at` remains null until a terminal state. -/
theorem C9_counterexample :
    dbC3after1.alerts.map
        (fun a => (a.delivery_status, a.retries_remaining, a.finished_at)) =
      [(DeliveryStatus.failed, 1, some 1001)] := by decide

/-! ## Ping path theorems -/

/-- C7: for every stored ping key of a non-deleted Check — whatever its
current status — the ping operation returns `Ok(Some(uuid))` for that Check
and the committed state holds the Check with `status = UP` and
`last_ping_at` set to the ping time. -/
theorem C7_ping_sets_status_up (now : Int) (key : String) (db : DB)
    (c : CheckRow) (h : pingLookup key db = some c) :
    (ping now key db).snd = .ok (some c.uuid) ∧
    { c with last_ping_at := some now, status := .up } ∈
      (ping now key db).fst.checks := by
  have hc : c ∈ db.checks := List.mem_of_find?_eq_some h
  have hp := List.find?_some h
  rw [Bool.and_eq_true] at hp
  have hpred : (c.id == c.id && !c.deleted) = true := by
    rw [Bool.and_eq_true]
    exact ⟨beq_iff_eq.mpr rfl, hp.2⟩
  have hcount : 0 < db.checks.countP (fun r => r.id == c.id && !r.deleted) := by
    rw [List.countP_pos_iff]
    exact ⟨c, hc, hpred⟩
  constructor
  · simp only [ping, h]
    rw [if_pos hcount]
  · simp only [ping, h]
    apply List.mem_map.mpr
    refine ⟨c, hc, ?_⟩
    rw [if_pos hpred]

/-- C7 witness: pinging the DOWN check's key flips it to UP, stamps the
ping time, and returns its identifier. -/
theorem C7_witness :
    pingLookup "k4" dbC7 = some checkDown ∧
    ((ping 5000 "k4" dbC7).snd = .ok (some checkDown.uuid) ∧
      { checkDown with last_ping_at := some 5000, status := .up } ∈
        (ping 5000 "k4" dbC7).fst.checks) :=
  ⟨by decide, C7_ping_sets_status_up 5000 "k4" dbC7 checkDown (by decide)⟩

/-- C8: the `/ping/{key}` endpoint's response is the constant `"OK"` for
every key, valid or not — so the response does not reveal whether the key
matched — and a key matching no non-deleted Check leaves the stored state
entirely unchanged. -/
theorem C8_unknown_key_inert (now : Int) (key : String) (db : DB) :
    (pingEndpoint now key db).snd = "OK" ∧
    (pingLookup key db = none → pingEndpoint now key db = (db, "OK")) := by
  refine ⟨rfl, ?_⟩
  intro h
  unfold pingEndpoint
  simp only [ping, h]

/-- C8 witness: an unknown key on the concrete state changes nothing and
gets the same `"OK"` response as a valid one. -/
theorem C8_witness :
    pingLookup "zzz" dbC7 = none ∧
    pingEndpoint 5000 "zzz" dbC7 = (dbC7, "OK") :=
  ⟨by decide, (C8_unknown_key_inert 5000 "zzz" dbC7).2 (by decide)⟩

/-! ## Detector transaction lemmas -/

theorem processCheckE_nofail (now : Int) (db : DB) (c : CheckRow) :
    processCheckE (fun _ _ => false) now db c = .ok (processCheck now db c) := by
  unfold processCheckE
  simp

theorem foldlM_processCheckE_nofail (now : Int) :
    ∀ (l : List CheckRow) (db : DB),
      l.foldlM (processCheckE (fun _ _ => false) now) db =
        .ok (l.foldl (processCheck now) db)
  | [], _ => rfl
  | c :: cs, db => by
      rw [List.foldlM_cons, processCheckE_nofail]
      show cs.foldlM (processCheckE (fun _ _ => false) now)
          (processCheck now db c) = _
      rw [foldlM_processCheckE_nofail now cs (processCheck now db c),
        List.foldl_cons]

theorem detectorTickE_nofail (now : Int) (db : DB) :
    detectorTickE (fun _ _ => false) now db =
      .ok (enqueue_notification_alerts_for_overdue_pings now db) :=
  foldlM_processCheckE_nofail now (overduePings now db) db

/-- C5 amended: the Overdue Detector tick is one single transaction over
all selected Checks, not one per Check: a store failure while processing
any selected Check rolls the whole tick back, leaving the database exactly
as it was (so the other overdue Checks' enqueues are aborted too), and a
failure-free tick commits the full multi-Check result. -/
theorem C5_tick_single_transaction (fails : Int → Int → Bool) (now : Int)
    (db : DB) :
    ((detectorTickCommitted fails now db).snd = false →
      (detectorTickCommitted fails now db).fst = db) ∧
    detectorTickCommitted (fun _ _ => false) now db =
      (enqueue_notification_alerts_for_overdue_pings now db, true) := by
  constructor
  · intro h
    unfold detectorTickCommitted at h ⊢
    cases hE : detectorTickE fails now db with
    | ok db1 =>
        rw [hE] at h
        exact absurd h (by simp)
    | error e => rfl
  · unfold detectorTickCommitted
    rw [detectorTickE_nofail]

/-- C5 witness: on the two-check state, the tick with the failing INSERT
reports an error and leaves the database unchanged. -/
theorem C5_witness :
    (detectorTickCommitted failsOnCheckA 4000 dbC5).snd = false ∧
    (detectorTickCommitted failsOnCheckA 4000 dbC5).fst = dbC5 :=
  ⟨by decide,
    (C5_tick_single_transaction failsOnCheckA 4000 dbC5).1 (by decide)⟩

/-! ## Per-pair alert counting -/

/-- Number of `notification_alerts` rows for one (check, channel) pair. -/
def pairCount (db : DB) (cid nid : Int) : Nat :=
  db.alerts.countP (fun a => a.check_id == cid && a.notification_id == nid)

/-- A `check_notifications` row links the pair (the join condition
`cn.notification_id = n.id AND cn.check_id = $1`). -/
def channelAttached (db : DB) (cid nid : Int) : Bool :=
  db.check_notifications.any (fun cn => cn.snd == nid && cn.fst == cid)

/-- A `notifications` row with the given id exists. -/
def channelRowExists (db : DB) (nid : Int) : Bool :=
  db.notifications.any (fun n => n.id == nid)

theorem pairCount_eq_zero_iff (db : DB) (cid nid : Int) :
    pairCount db cid nid = 0 ↔ alertExists db cid nid = false := by
  unfold pairCount alertExists
  rw [List.countP_eq_zero, List.any_eq_false]

theorem countP_newAlerts (now cid0 : Int) (st : CheckStatus) (cid nid : Int) :
    ∀ (k : Int) (ns : List NotificationRow),
      (newAlerts now cid0 st k ns).countP
          (fun a => a.check_id == cid && a.notification_id == nid) =
        if cid0 = cid then ns.countP (fun n => n.id == nid) else 0
  | _, [] => by simp [newAlerts]
  | k, n :: ns => by
      rw [newAlerts, List.countP_cons,
        countP_newAlerts now cid0 st cid nid (k + 1) ns]
      have hpred : ((newAlert now k cid0 st n).check_id == cid &&
          (newAlert now k cid0 st n).notification_id == nid) =
          (cid0 == cid && n.id == nid) := rfl
      rw [hpred, List.countP_cons]
      by_cases h : cid0 = cid
      · subst h
        simp
      · simp [h, beq_eq_false_iff_ne.mpr h]

theorem countP_id_and (nid : Int) (g : Int → Bool) :
    ∀ (l : List NotificationRow),
      l.countP (fun n => (n.id == nid) && g n.id) =
        if g nid = true then l.countP (fun n => n.id == nid) else 0
  | [] => by simp
  | n :: l => by
      rw [List.countP_cons, List.countP_cons, countP_id_and nid g l]
      by_cases hn : n.id = nid
      · rw [hn]
        by_cases hg : g nid = true
        · simp [hg]
        · simp [hg]
      · have hb : (n.id == nid) = false := beq_eq_false_iff_ne.mpr hn
        simp [hb]

theorem countP_two_id (notifs : List NotificationRow) (x y : Int) :
    notifs.countP (fun n => (n.id == x) && (n.id == y)) =
      if y = x then notifs.countP (fun n => n.id == x) else 0 := by
  by_cases h : y = x
  · subst h
    rw [if_pos rfl]
    exact List.countP_congr (fun n _ => by rw [Bool.and_self])
  · rw [if_neg h, List.countP_eq_zero]
    intro n hn hp
    rw [Bool.and_eq_true] at hp
    exact h ((beq_iff_eq.mp hp.2).symm.trans (beq_iff_eq.mp hp.1))

theorem countP_flatMap_filter (notifs : List NotificationRow) (nid : Int) :
    ∀ (cns : List (Int × Int)),
      ((cns.flatMap (fun cn =>
          notifs.filter (fun n => n.id == cn.snd))).countP
            (fun n => n.id == nid)) =
        cns.countP (fun cn => cn.snd == nid) *
          notifs.countP (fun n => n.id == nid)
  | [] => by simp
  | cn :: cns => by
      rw [List.flatMap_cons, List.countP_append,
        countP_flatMap_filter notifs nid cns, List.countP_cons,
        List.countP_filter, countP_two_id]
      by_cases h : cn.snd = nid
      · rw [if_pos h, if_pos (beq_iff_eq.mpr h), Nat.add_mul, Nat.one_mul,
          Nat.add_comm]
      · rw [if_neg h, beq_eq_false_iff_ne.mpr h]
        simp

theorem countP_notif_id_of_nodup (nid : Int) :
    ∀ (l : List NotificationRow), (l.map (fun n => n.id)).Nodup →
      l.countP (fun n => n.id == nid) =
        if l.any (fun n => n.id == nid) = true then 1 else 0
  | [], _ => by simp
  | n :: l, hnd => by
      rw [List.map_cons, List.nodup_cons] at hnd
      rw [List.countP_cons, countP_notif_id_of_nodup nid l hnd.2,
        List.any_cons]
      by_cases h : n.id = nid
      · have hz : l.any (fun m => m.id == nid) = false := by
          rw [List.any_eq_false]
          intro m hm hmn
          apply hnd.1
          have hmap : m.id ∈ l.map (fun x => x.id) :=
            List.mem_map_of_mem (fun x => x.id) hm
          rw [beq_iff_eq.mp hmn, ← h] at hmap
          exact hmap
        simp [h, hz]
      · have hb : (n.id == nid) = false := beq_eq_false_iff_ne.mpr h
        simp [hb]

theorem countP_pairs_of_nodup (cid nid : Int) :
    ∀ (l : List (Int × Int)), l.Nodup →
      l.countP (fun cn => cn.snd == nid && cn.fst == cid) =
        if l.any (fun cn => cn.snd == nid && cn.fst == cid) = true
        then 1 else 0
  | [], _ => by simp
  | cn :: l, hnd => by
      rw [List.nodup_cons] at hnd
      rw [List.countP_cons, countP_pairs_of_nodup cid nid l hnd.2,
        List.any_cons]
      by_cases h : (cn.snd == nid && cn.fst == cid) = true
      · have hcn : cn = (cid, nid) := by
          rw [Bool.and_eq_true] at h
          exact Prod.ext (beq_iff_eq.mp h.2) (beq_iff_eq.mp h.1)
        have hz : l.any (fun m => m.snd == nid && m.fst == cid) = false := by
          rw [List.any_eq_false]
          intro m hm hmp
          apply hnd.1
          rw [Bool.and_eq_true] at hmp
          have hm2 : m = (cid, nid) :=
            Prod.ext (beq_iff_eq.mp hmp.2) (beq_iff_eq.mp hmp.1)
          rw [hcn, ← hm2]
          exact hm
        simp [h, hz]
      · have hb : (cn.snd == nid && cn.fst == cid) = false :=
          Bool.eq_false_iff.mpr h
        rw [hb, Bool.false_or]
        simp

theorem pairCount_processCheck (now : Int) (db : DB) (c : CheckRow)
    (cid nid : Int)
    (hndn : (db.notifications.map (fun n => n.id)).Nodup)
    (hndc : db.check_notifications.Nodup) :
    pairCount (processCheck now db c) cid nid =
      pairCount db cid nid +
        (if c.id = cid ∧ channelAttached db cid nid = true ∧
            channelRowExists db nid = true ∧ pairCount db cid nid = 0
         then 1 else 0) := by
  have halts : (processCheck now db c).alerts =
      db.alerts ++ newAlerts now c.id c.status db.next_alert_id
        (notificationsToAlert db c.id) := rfl
  unfold pairCount
  rw [halts, List.countP_append]
  congr 1
  rw [countP_newAlerts]
  by_cases hcid : c.id = cid
  · subst hcid
    rw [if_pos rfl]
    unfold notificationsToAlert
    rw [List.countP_filter,
      countP_id_and nid (fun i => !alertExists db c.id i)
        (attachedChannelRows db c.id)]
    unfold attachedChannelRows
    rw [countP_flatMap_filter db.notifications nid
        (db.check_notifications.filter (fun cn => cn.fst == c.id)),
      List.countP_filter,
      countP_pairs_of_nodup c.id nid db.check_notifications hndc,
      countP_notif_id_of_nodup nid db.notifications hndn]
    have ea : channelAttached db c.id nid =
        db.check_notifications.any
          (fun cn => cn.snd == nid && cn.fst == c.id) := rfl
    have er : channelRowExists db nid =
        db.notifications.any (fun n => n.id == nid) := rfl
    rw [← ea, ← er]
    by_cases hA : channelAttached db c.id nid = true
    · by_cases hR : channelRowExists db nid = true
      · by_cases hz : List.countP
            (fun a => a.check_id == c.id && a.notification_id == nid)
            db.alerts = 0
        · have hex : alertExists db c.id nid = false :=
            (pairCount_eq_zero_iff db c.id nid).mp hz
          rw [hex]
          simp [hA, hR, hz]
        · have hex : alertExists db c.id nid = true :=
            Bool.ne_false_iff.mp
              (fun hf => hz ((pairCount_eq_zero_iff db c.id nid).mpr hf))
          rw [hex]
          simp [hz]
      · simp [hA, hR]
    · simp [hA]
  · rw [if_neg hcid, if_neg (fun hh => hcid hh.1)]

theorem pairCount_foldl (now cid nid : Int) :
    ∀ (l : List CheckRow) (db : DB),
      (db.notifications.map (fun n => n.id)).Nodup →
      db.check_notifications.Nodup →
      pairCount (l.foldl (processCheck now) db) cid nid =
        pairCount db cid nid +
          (if l.any (fun c => c.id == cid) = true ∧
              channelAttached db cid nid = true ∧
              channelRowExists db nid = true ∧
              pairCount db cid nid = 0
           then 1 else 0)
  | [], db, _, _ => by simp
  | c :: l, db, hndn, hndc => by
      rw [List.foldl_cons]
      have e1 : channelAttached (processCheck now db c) cid nid =
          channelAttached db cid nid := rfl
      have e2 : channelRowExists (processCheck now db c) nid =
          channelRowExists db nid := rfl
      have e3 : (processCheck now db c).notifications = db.notifications := rfl
      have e4 : (processCheck now db c).check_notifications =
          db.check_notifications := rfl
      have IH := pairCount_foldl now cid nid l (processCheck now db c)
          (by rw [e3]; exact hndn) (by rw [e4]; exact hndc)
      rw [IH, e1, e2, pairCount_processCheck now db c cid nid hndn hndc,
        List.any_cons]
      by_cases hA : channelAttached db cid nid = true
      · by_cases hR : channelRowExists db nid = true
        · by_cases hz : pairCount db cid nid = 0
          · by_cases hc : c.id = cid
            · simp [hA, hR, hz, hc]
            · have hb : (c.id == cid) = false := beq_eq_false_iff_ne.mpr hc
              simp [hA, hR, hz, hc, hb]
          · simp [hz]
        · simp [hR]
      · simp [hA]

/-- C2 amended: for every (Check, NotificationChannel) pair and every
Overdue Detector tick that selects that Check, exactly one new
NotificationAlert is enqueued for the pair if and only if no
NotificationAlert at all — of any delivery status — exists for it; an alert
that has reached a terminal delivery status therefore blocks every
subsequent outage from enqueueing a new alert for the same pair. -/
theorem C2_enqueue_iff_no_alert_for_pair (now : Int) (db : DB)
    (c : CheckRow) (n : NotificationRow)
    (hndn : (db.notifications.map (fun x => x.id)).Nodup)
    (hndc : db.check_notifications.Nodup)
    (hc : c ∈ db.checks) (hsel : overdueSelected now c = true)
    (hn : n ∈ db.notifications)
    (hatt : channelAttached db c.id n.id = true) :
    pairCount (enqueue_notification_alerts_for_overdue_pings now db)
        c.id n.id =
      pairCount db c.id n.id +
        (if pairCount db c.id n.id = 0 then 1 else 0) := by
  have hany : (overduePings now db).any (fun x => x.id == c.id) = true := by
    rw [List.any_eq_true]
    exact ⟨c, List.mem_filter.mpr ⟨hc, hsel⟩, beq_iff_eq.mpr rfl⟩
  have hrow : channelRowExists db n.id = true := by
    rw [show channelRowExists db n.id =
        db.notifications.any (fun x => x.id == n.id) from rfl,
      List.any_eq_true]
    exact ⟨n, hn, beq_iff_eq.mpr rfl⟩
  have hfold := pairCount_foldl now c.id n.id (overduePings now db) db
      hndn hndc
  show pairCount ((overduePings now db).foldl (processCheck now) db)
      c.id n.id = _
  rw [hfold]
  by_cases hz : pairCount db c.id n.id = 0
  · rw [if_pos ⟨hany, hatt, hrow, hz⟩, if_pos hz]
  · rw [if_neg (fun hh => hz hh.2.2.2), if_neg hz]

/-- C2 witness: on the one-check, one-channel, empty-queue state, the tick
enqueues exactly one alert for the pair (the pair count goes from 0 to 1). -/
theorem C2_witness :
    (dbC1.notifications.map (fun x => x.id)).Nodup ∧
    dbC1.check_notifications.Nodup ∧
    checkA ∈ dbC1.checks ∧
    overdueSelected 4000 checkA = true ∧
    chanA ∈ dbC1.notifications ∧
    channelAttached dbC1 checkA.id chanA.id = true ∧
    pairCount (enqueue_notification_alerts_for_overdue_pings 4000 dbC1)
        checkA.id chanA.id =
      pairCount dbC1 checkA.id chanA.id +
        (if pairCount dbC1 checkA.id chanA.id = 0 then 1 else 0) :=
  ⟨by decide, by decide, by decide, by decide, by decide, by decide,
    C2_enqueue_iff_no_alert_for_pair 4000 dbC1 checkA chanA (by decide)
      (by decide) (by decide) (by decide) (by decide) (by decide)⟩

end Up
